import Mathlib

set_option maxRecDepth 16000

/-!
A verification development for the data-mapping layer of the
AIRecipeExtractor repository.  The definitions below are a shallow
embedding, function by function, of `src/services/tandoorService.ts`
(duration parsing, servings parsing, ingredient header detection, the
Tandoor payload normalizer, and the export client's error
classification) and of `formatRecipeJsonToText` from the recipe
utilities module.

Modelling conventions:
* JavaScript `null`/`undefined` on an optional string field are both
  embedded as `Option.none`; JavaScript truthiness of a string value is
  checked explicitly (`some ""` is falsy).
* JavaScript object keys that are only conditionally assigned
  (`working_time`, `waiting_time`, `servings`) are embedded as `Option`
  fields where `none` means "key absent from the payload".
* Strings are Lean `String`s; `substring(0, n)` is `String.take n`.
* The network call in `exportToTandoor` is embedded as an explicit
  oracle argument `fetch : String → String → TandoorPayload → FetchResult`;
  the function consulting the oracle models issuing the HTTP request.
-/

namespace RecipeApp

/-- Model of `str.trim()` on the character list: drop leading and trailing
whitespace. -/
def trimChars (cs : List Char) : List Char :=
  ((cs.dropWhile Char.isWhitespace).reverse.dropWhile Char.isWhitespace).reverse

/-- Model of `str.trim()`. -/
def jsTrim (s : String) : String :=
  ⟨trimChars s.data⟩

/-- Model of `str.startsWith(p)`. -/
def jsStartsWith (s p : String) : Bool :=
  p.data.isPrefixOf s.data

/-- Model of `str.endsWith(p)`. -/
def jsEndsWith (s p : String) : Bool :=
  p.data.isSuffixOf s.data

/-- Model of `str.toLowerCase()` (ASCII case folding suffices here). -/
def jsToLower (s : String) : String :=
  ⟨s.data.map Char.toLower⟩

/-- Does `needle` occur as a contiguous run inside `hay`?
(`String.prototype.includes`.) -/
def hasSub (needle : List Char) : List Char → Bool
  | [] => needle.isEmpty
  | c :: rest => needle.isPrefixOf (c :: rest) || hasSub needle rest

/-- Worker for `str.split(sep)` with a nonempty separator; `fuel`
bounds the recursion and is always at least the input length. -/
def jsSplitGo (sep : List Char) : Nat → List Char → List Char → List (List Char)
  | 0, cs, acc => [acc.reverse ++ cs]
  | fuel + 1, cs, acc =>
    match cs with
    | [] => [acc.reverse]
    | c :: rest =>
      if sep.isPrefixOf cs then
        acc.reverse :: jsSplitGo sep fuel (cs.drop sep.length) []
      else
        jsSplitGo sep fuel rest (c :: acc)

/-- Model of `str.split(sep)` for a nonempty separator: the split pieces in
order, with empty pieces kept (`"".split(",") == [""]`,
`",".split(",") == ["", ""]`). -/
def jsSplit (s : String) (sep : String) : List String :=
  (jsSplitGo sep.data (s.data.length + 1) s.data []).map fun cs => ⟨cs⟩

/-- Numeric value of a run of decimal digit characters, as
`parseInt(str, 10)` computes it for an all-digit string. -/
def digitsToNat (ds : List Char) : Nat :=
  ds.foldl (fun n c => n * 10 + (c.toNat - '0'.toNat)) 0

/-- Scanner for the `/PT(?:(\d+)H)?(?:(\d+)M)?(?:(\d+)S)?/` regex: the
leftmost match starts at the first occurrence of the literal `PT`.
Returns the characters following that first `PT`, or `none` when the
string does not contain `PT` (no match). -/
def findPT : List Char → Option (List Char)
  | 'P' :: 'T' :: rest => some rest
  | _ :: rest => findPT rest
  | [] => none

/-- One optional regex group `(?:(\d+)X)?` at the current position: the
greedy digit run must be nonempty and immediately followed by the
letter, otherwise the group captures nothing and consumes nothing. -/
def matchGroup (letter : Char) (cs : List Char) : Option Nat × List Char :=
  let ds := cs.takeWhile Char.isDigit
  let rest := cs.dropWhile Char.isDigit
  match ds, rest with
  | [], _ => (none, cs)
  | _, c :: rest' => if c = letter then (some (digitsToNat ds), rest') else (none, cs)
  | _, [] => (none, cs)

/-- Result of `durationStr.match(regex)` for the PT-duration regex:
`none` when there is no match at all, otherwise the three captured
groups with an absent group already defaulted to 0, exactly as
`parseInt(matches[i] || '0', 10)` does. -/
def durMatch (s : String) : Option (Nat × Nat × Nat) :=
  match findPT s.data with
  | none => none
  | some rest =>
    let (h, r1) := matchGroup 'H' rest
    let (m, r2) := matchGroup 'M' r1
    let (sec, _) := matchGroup 'S' r2
    some (h.getD 0, m.getD 0, sec.getD 0)

/-- Function `isoDurationToMinutes` from `src/services/tandoorService.ts`:
`if (!durationStr) return null`; no regex match gives `null`; otherwise
`hours*60 + minutes`, plus `Math.round(seconds/60)` when `seconds > 0`
(for natural `s`, `Math.round(s/60) = (s+30)/60` in integer division);
a total of 0 is returned as `null`. -/
def isoDurationToMinutes (durationStr : Option String) : Option Nat :=
  match durationStr with
  | none => none
  | some s =>
    if s = "" then none
    else
      match durMatch s with
      | none => none
      | some (hours, minutes, seconds) =>
        let totalMinutes := hours * 60 + minutes +
          (if seconds > 0 then (seconds + 30) / 60 else 0)
        if totalMinutes > 0 then some totalMinutes else none

/-- Leftmost `(\d+)` match of `yieldStr.match(/(\d+)/)`: the maximal
digit run starting at the first digit character, or `none` when the
string contains no digit. -/
def firstDigitRun : List Char → Option (List Char)
  | [] => none
  | c :: rest =>
    if c.isDigit then some ((c :: rest).takeWhile Char.isDigit)
    else firstDigitRun rest

/-- Output record of `parseServings`. -/
structure ParsedServings where
  servings : Option Nat
  servings_text : String
  deriving Repr, DecidableEq

/-- Function `parseServings` from `src/services/tandoorService.ts`: falsy input
gives `{servings: null, servings_text: ""}`; otherwise the first digit
run (if any) is the serving count and the text is hard-truncated to 32
characters. -/
def parseServings (yieldStr : Option String) : ParsedServings :=
  match yieldStr with
  | none => { servings := none, servings_text := "" }
  | some y =>
    if y = "" then { servings := none, servings_text := "" }
    else
      let num := (firstDigitRun y.data).map digitsToNat
      let servingsText := if y.length > 32 then y.take 32 else y
      { servings := num, servings_text := servingsText }

/-- One entry of `recipeInstructions` from `src/types.ts`: either a
plain string or a `HowToStep` object (only its `text` property is read
by the code under study). -/
inductive InstructionEntry
  | plain (s : String)
  | howToStep (text : String)
  deriving Repr, DecidableEq, Inhabited

/-- The instruction text the step mapper extracts from one entry:
a string entry is used directly; for an object entry
`instructionItem.text` is used when truthy, and an empty `text` falls
through to `String(instructionItem)`, which is `"[object Object]"`. -/
def textOfEntry : InstructionEntry → String
  | .plain s => s
  | .howToStep t => if t = "" then "[object Object]" else t

/-- The `food` sub-object of a regular Tandoor ingredient. -/
structure TandoorFood where
  name : String
  ignore_shopping : Bool
  supermarket_category : Option String
  deriving Repr, DecidableEq

/-- The `unit` sub-object of a Tandoor ingredient. -/
structure TandoorUnit where
  name : String
  description : Option String
  deriving Repr, DecidableEq

/-- One ingredient object pushed onto `steps[0].ingredients`. -/
structure TandoorIngredient where
  food : Option TandoorFood
  unit : TandoorUnit
  amount : String
  note : String
  order : Nat
  is_header : Bool
  no_amount : Bool
  deriving Repr, DecidableEq

/-- One step object of the Tandoor payload. -/
structure TandoorStep where
  name : String
  type : String
  instruction : String
  ingredients : List TandoorIngredient
  time : Nat
  order : Nat
  show_as_header : Bool
  deriving Repr, DecidableEq

/-- One keyword object of the Tandoor payload. -/
structure TandoorKeyword where
  name : String
  description : String
  deriving Repr, DecidableEq

/-- The fixed `nutrition` sub-object. -/
structure TandoorNutrition where
  carbohydrates : Nat
  fats : Nat
  proteins : Nat
  calories : Nat
  source : String
  deriving Repr, DecidableEq

/-- The normalized Tandoor creation payload built by `exportToTandoor`.
`working_time`, `waiting_time` and `servings` are only conditionally
assigned in the source, so `none` models "key absent from the payload"
(the code never assigns `null` to these keys). -/
structure TandoorPayload where
  name : String
  description : Option String
  keywords : List TandoorKeyword
  steps : List TandoorStep
  source_url : Option String
  internal : Bool
  show_ingredient_overview : Bool
  nutrition : TandoorNutrition
  properties : List Unit
  file_path : String
  private_flag : Bool
  shared : List Unit
  working_time : Option Nat
  waiting_time : Option Nat
  servings : Option Nat
  servings_text : String
  deriving Repr, DecidableEq

/-- The input record consumed by the mapping layer (`RecipeData` from
`src/types.ts`, restricted to the fields these functions read; the
unread `image`/`dishImageDescription`/`@context`/`@type` fields are
omitted).  An absent or `null` optional field is `none`. -/
structure RecipeData where
  name : Option String := none
  description : Option String := none
  recipeIngredient : Option (List String) := none
  recipeInstructions : Option (List InstructionEntry) := none
  prepTime : Option String := none
  cookTime : Option String := none
  recipeYield : Option String := none
  recipeCategory : Option String := none
  recipeCuisine : Option String := none
  keywords : Option String := none
  deriving Repr, DecidableEq

/-- JavaScript `a || b` for an optional string `a`: `null`, `undefined`
and `""` are falsy. -/
def jsOr (a : Option String) (b : String) : String :=
  match a with
  | some s => if s = "" then b else s
  | none => b

/-- JavaScript truthiness of an optional string value. -/
def jsTruthy (a : Option String) : Bool :=
  match a with
  | some s => s != ""
  | none => false

/-- The step object built for one instruction entry (`order` is the
entry's index in `recipeInstructions`, `ingredients` starts empty). -/
def stepObject (index : Nat) (instructionText : String) : TandoorStep :=
  { name := ""
  , type := "TEXT"
  , instruction := instructionText
  , ingredients := []
  , time := 0
  , order := index
  , show_as_header := false }

/-- The placeholder step substituted when no step survives filtering. -/
def placeholderStep : TandoorStep :=
  { name := ""
  , type := "TEXT"
  , instruction := "No instructions provided."
  , ingredients := []
  , time := 0
  , order := 0
  , show_as_header := false }

/-- The steps mapping `recipeInstructions.map((item, index) => stepObject).filter(step =>
step.instruction.trim() !== "")` — orders are assigned by `map` over
the original list, then blank-text steps are removed. -/
def stepsFromInstructions (l : List InstructionEntry) : List TandoorStep :=
  (l.mapIdx fun index item => stepObject index (textOfEntry item)).filter
    (fun step => jsTrim step.instruction != "")

/-- Case-insensitive `startsWith`, as the `i`-flagged anchored regex
alternatives behave. -/
def ciStartsWith (s p : String) : Bool :=
  jsToLower (s.take p.length) = jsToLower p

/-- The header heuristic
`/^(For the .*?:|Sauce:|Marinade:|Dressing:)/i.test(trimmed) ||
trimmed.endsWith(':')`.  In the first alternative `.*?` cannot cross a
newline, so a colon must appear after `"For the "` before any
newline. -/
def isLikelyHeader (ingredientString : String) : Bool :=
  let t := jsTrim ingredientString
  (ciStartsWith t "For the " && ((t.data.drop 8).takeWhile (fun c => c ≠ '\n')).contains ':')
    || ciStartsWith t "Sauce:" || ciStartsWith t "Marinade:" || ciStartsWith t "Dressing:"
    || jsEndsWith t ":"

/-- The ingredient object built for one line of `recipeIngredient`
(`order` is the line's index over the whole ingredient list). -/
def mkTandoorIngredient (index : Nat) (ingredientString : String) : TandoorIngredient :=
  if isLikelyHeader ingredientString then
    { food := none
    , unit := { name := "g", description := none }
    , amount := "0"
    , note := jsTrim ingredientString
    , order := index
    , is_header := true
    , no_amount := false }
  else
    { food := some { name := jsTrim (ingredientString.take 128)
                   , ignore_shopping := false
                   , supermarket_category := none }
    , unit := { name := "g", description := none }
    , amount := "0"
    , note := ""
    , order := index
    , is_header := false
    , no_amount := true }

/-- Pushing the ingredient objects onto `steps[0].ingredients` (the
first step's initially empty list receives every ingredient). -/
def attachIngredients (steps : List TandoorStep) (ings : List TandoorIngredient) :
    List TandoorStep :=
  match steps with
  | [] => []
  | s :: rest => { s with ingredients := s.ingredients ++ ings } :: rest

/-- Model of `keywordsSet.add(kw)` for the insertion-ordered JavaScript `Set`:
append the string unless it is already present (exact, case-sensitive
equality). -/
def addKeyword (acc : List String) (kw : String) : List String :=
  if acc.contains kw then acc else acc ++ [kw]

/-- The first keyword statement of the source: when the keywords field
is truthy, split it on commas and add each trimmed, nonempty token to
the (initially empty) set. -/
def keywordsAfterSplit (keywords : Option String) : List String :=
  match keywords with
  | some ks =>
    if ks = "" then []
    else ((jsSplit ks ",").map jsTrim).foldl
      (fun acc t => if t = "" then acc else addKeyword acc t) []
  | none => []

/-- The category/cuisine keyword statements of the source: when the
field is truthy and its trimmed value nonempty, add the trimmed value
to the set. -/
def addFieldKeyword (field : Option String) (acc : List String) : List String :=
  match field with
  | some c =>
    if c = "" then acc
    else if jsTrim c = "" then acc else addKeyword acc (jsTrim c)
  | none => acc

/-- The keyword token set in insertion order: split the keywords string
on commas, trim each token and add it when nonempty; then add the
trimmed category and cuisine when their fields and trimmed values are
truthy. -/
def keywordTokens (r : RecipeData) : List String :=
  addFieldKeyword r.recipeCuisine
    (addFieldKeyword r.recipeCategory (keywordsAfterSplit r.keywords))

/-- The emission `Array.from(keywordsSet).map(kw => ({name: kw.substring(0,128),
description: ""}))`. -/
def keywordObjects (r : RecipeData) : List TandoorKeyword :=
  (keywordTokens r).map fun kw => { name := kw.take 128, description := "" }

/-- The instruction-mapping guard of the source: when
`recipeInstructions` is present the mapped-and-filtered steps, else the
initial empty list. -/
def stepsBase : Option (List InstructionEntry) → List TandoorStep
  | some l => stepsFromInstructions l
  | none => []

/-- Ensuring the steps list is nonempty: the placeholder step is
substituted when no step survived. -/
def stepsOrPlaceholder (recipeInstructions : Option (List InstructionEntry)) :
    List TandoorStep :=
  let steps0 := stepsBase recipeInstructions
  if steps0.isEmpty then [placeholderStep] else steps0

/-- The ingredient-pushing guard of the source: when `recipeIngredient`
is present, every mapped ingredient is pushed onto the first step. -/
def stepsWithIngredients : Option (List String) → List TandoorStep → List TandoorStep
  | some il, steps => attachIngredients steps (il.mapIdx mkTandoorIngredient)
  | none, steps => steps

/-- The clamp `description ? description.substring(0, 512) : null`. -/
def descriptionClamped : Option String → Option String
  | some d => if d = "" then none else some (d.take 512)
  | none => none

/-- The pure payload-construction part of `exportToTandoor` from
`src/services/tandoorService.ts` (everything between the URL check and
the `fetch` call), field by field in source order. -/
def buildTandoorPayload (recipeData : RecipeData) : TandoorPayload :=
  { name := (jsOr recipeData.name "Untitled Recipe").take 128
  , description := descriptionClamped recipeData.description
  , keywords := keywordObjects recipeData
  , steps := stepsWithIngredients recipeData.recipeIngredient
      (stepsOrPlaceholder recipeData.recipeInstructions)
  , source_url := none
  , internal := false
  , show_ingredient_overview := false
  , nutrition := { carbohydrates := 0, fats := 0, proteins := 0, calories := 0, source := "" }
  , properties := []
  , file_path := ""
  , private_flag := false
  , shared := []
  , working_time := isoDurationToMinutes recipeData.prepTime
  , waiting_time := isoDurationToMinutes recipeData.cookTime
  , servings := (parseServings recipeData.recipeYield).servings
  , servings_text := (parseServings recipeData.recipeYield).servings_text }

/-- The value attached to one field of a parsed JSON error body:
`Array.isArray(errors)` gives a list of strings, a non-array object
gives key/value pairs, anything else is coerced with `String(...)`. -/
inductive ErrVal
  | list (xs : List String)
  | nested (kvs : List (String × String))
  | prim (s : String)
  deriving Repr, DecidableEq

/-- Outcome of `await response.json()` on a failed response: a parsed
JSON object (its `Object.entries`), some parsed non-object value
(already coerced with `String(...)`), or a parse failure together with
the `response.text()` fallback (already defaulted to `""`). -/
inductive BodyParse
  | jsonObj (entries : List (String × ErrVal))
  | jsonOther (s : String)
  | unparseable (text : String)
  deriving Repr, DecidableEq

/-- Flattening of one `[field, errors]` entry of the error body. -/
def flattenFieldError : String × ErrVal → String
  | (field, .list xs) => field ++ ": " ++ String.intercalate ", " xs
  | (field, .nested kvs) =>
      field ++ ": \x7b " ++
        String.intercalate ", " (kvs.map fun kv => kv.1 ++ ": " ++ kv.2) ++ " \x7d"
  | (field, .prim s) => field ++ ": " ++ s

/-- The `errorMessage` built from the status and the response body
before the status-specific overrides.  When the body is an object with
no entries, `fieldErrors` is empty, `errorData.detail` is absent and
`JSON.stringify(errorData)` is `"{}"`, so that branch collapses to a
literal `"{}"` detail. -/
def buildErrorMessage (status : Nat) (body : BodyParse) : String :=
  let base := "Tandoor API request failed with status " ++ toString status ++ "."
  match body with
  | .jsonObj entries =>
    let fieldErrors := String.intercalate "; " (entries.map flattenFieldError)
    if fieldErrors != "" then base ++ " Details: \x7b" ++ fieldErrors ++ "\x7d"
    else base ++ " Details: \x7b\x7d"
  | .jsonOther s => base ++ " Details: " ++ s
  | .unparseable text =>
    base ++ " Could not parse error response body. Response: " ++
      (if text = "" then "(empty response)" else text)

/-- The final error message for a non-ok response: the body-derived
message, overridden by the fixed authentication message for 401/403 and
the fixed endpoint message for 404 (400 keeps the detailed message). -/
def classifyError (status : Nat) (body : BodyParse) : String :=
  let errorMessage := buildErrorMessage status body
  if status = 401 ∨ status = 403 then
    "Authentication failed. Please check your Tandoor API Key."
  else if status = 400 then errorMessage
  else if status = 404 then
    "Tandoor API endpoint not found. Please check the Tandoor Instance URL."
  else errorMessage

/-- Substring test modelling `String.prototype.includes`. -/
def strContains (hay needle : String) : Bool :=
  hasSub needle.data hay.data

/-- The guard of the network-error catch branch: the thrown `TypeError`
message contains `'NetworkError'` or `'Failed to fetch'`. -/
def isNetworkFailureMsg (msg : String) : Bool :=
  strContains msg "NetworkError" || strContains msg "Failed to fetch"

/-- The wrapped message thrown for a transport-level fetch failure. -/
def networkErrorMessage (original : String) : String :=
  "Network error or Tandoor instance unreachable. Check URL and CORS settings on your Tandoor instance if this is a self-hosted setup. Original: " ++ original

/-- What the awaited `fetch` can produce: an HTTP response (status plus
parsed error body), a thrown `TypeError` (transport failure path), or a
thrown ordinary `Error`. -/
inductive FetchResult
  | response (status : Nat) (body : BodyParse)
  | typeErrorThrow (msg : String)
  | errorThrow (msg : String)
  deriving Repr, DecidableEq

/-- Model of `sanitizedUrl.replace(/\/$/, '')`: drop one trailing slash. -/
def dropTrailingSlash (s : String) : String :=
  if jsEndsWith s "/" then s.dropRight 1 else s

/-- Function `exportToTandoor` from `src/services/tandoorService.ts` with the
network call explicit: validate the base URL (failing before the oracle
is ever consulted), build the payload, issue the request through the
oracle and classify the outcome.  A thrown message is an `Except.error`;
a 2xx response returns normally. -/
def exportToTandoor (tandoorBaseUrl apiKey : String) (recipeData : RecipeData)
    (fetch : String → String → TandoorPayload → FetchResult) : Except String Unit :=
  let sanitizedUrl := jsTrim tandoorBaseUrl
  if !(jsStartsWith sanitizedUrl "http://" || jsStartsWith sanitizedUrl "https://") then
    .error "Invalid Tandoor URL: Must start with http:// or https://"
  else
    let apiUrl := dropTrailingSlash sanitizedUrl ++ "/api/recipe/"
    let tandoorPayload := buildTandoorPayload recipeData
    match fetch apiUrl apiKey tandoorPayload with
    | .response status body =>
      if 200 ≤ status ∧ status ≤ 299 then .ok ()
      else .error (classifyError status body)
    | .typeErrorThrow msg =>
      if isNetworkFailureMsg msg then .error (networkErrorMessage msg)
      else .error msg
    | .errorThrow msg => .error msg

/-- Function `formatIsoDuration` from the recipe utilities module: empty/absent
input renders as `""`, a non-matching string is returned unchanged,
otherwise hours and minutes render with pluralisation (seconds are
parsed but unused) and an all-zero rendering falls back to the original
string. -/
def formatIsoDuration (isoDuration : Option String) : String :=
  match isoDuration with
  | none => ""
  | some s =>
    if s = "" then ""
    else
      match durMatch s with
      | none => s
      | some (hours, minutes, _) =>
        let formatted :=
          (if hours > 0 then
            toString hours ++ " hour" ++ (if hours > 1 then "s" else "") ++ " "
          else "") ++
          (if minutes > 0 then
            toString minutes ++ " minute" ++ (if minutes > 1 then "s" else "") ++ " "
          else "")
        if jsTrim formatted = "" then s else jsTrim formatted

/-- One numbered instruction line of the plain-text rendering: a string
entry always renders (even when empty); an object entry renders only
when its `text` is truthy. -/
def instructionLine (index : Nat) : InstructionEntry → String
  | .plain s => toString (index + 1) ++ ". " ++ s ++ "\n"
  | .howToStep t =>
    if t != "" then toString (index + 1) ++ ". " ++ t ++ "\n" else ""

/-- The ingredients section: a dashed list when the ingredient list is
present and nonempty, otherwise a "No ingredients found." line that is
suppressed for the "No Recipe Found" sentinel. -/
def ingredientsSection (r : RecipeData) : String :=
  match r.recipeIngredient with
  | some l =>
    if l.length > 0 then
      "\nIngredients:\n" ++ String.join (l.map fun i => "- " ++ i ++ "\n")
    else if r.name ≠ some "No Recipe Found" then "\nNo ingredients found.\n" else ""
  | none =>
    if r.name ≠ some "No Recipe Found" then "\nNo ingredients found.\n" else ""

/-- The instructions section: a numbered list when present and
nonempty, otherwise a "No instructions found." line that is suppressed
for the "No Recipe Found" sentinel. -/
def instructionsSection (r : RecipeData) : String :=
  match r.recipeInstructions with
  | some l =>
    if l.length > 0 then
      "\nInstructions:\n" ++ String.join (l.mapIdx instructionLine)
    else if r.name ≠ some "No Recipe Found" then "\nNo instructions found.\n" else ""
  | none =>
    if r.name ≠ some "No Recipe Found" then "\nNo instructions found.\n" else ""

/-- Everything `formatRecipeJsonToText` appends after the title line. -/
def recipeBodyText (r : RecipeData) : String :=
  (if jsTruthy r.description then "\nDescription: " ++ r.description.getD "" ++ "\n" else "")
  ++ (if jsTruthy r.recipeYield then "\nYield: " ++ r.recipeYield.getD "" ++ "\n" else "")
  ++ (if jsTruthy r.prepTime then "Prep Time: " ++ formatIsoDuration r.prepTime ++ "\n" else "")
  ++ (if jsTruthy r.cookTime then "Cook Time: " ++ formatIsoDuration r.cookTime ++ "\n" else "")
  ++ (if jsTruthy r.recipeCategory then "Category: " ++ r.recipeCategory.getD "" ++ "\n" else "")
  ++ (if jsTruthy r.recipeCuisine then "Cuisine: " ++ r.recipeCuisine.getD "" ++ "\n" else "")
  ++ ingredientsSection r
  ++ instructionsSection r
  ++ (if jsTruthy r.keywords then "\nKeywords: " ++ r.keywords.getD "" ++ "\n" else "")

/-- Function `formatRecipeJsonToText` from the recipe utilities module.  The
title line renders only for a truthy name that is neither
`"Untitled Recipe"` nor `"No Recipe Found"`; the `"No Recipe Found"`
sentinel short-circuits to the fixed message; the result is trimmed.
(The source's initial null-record guard cannot fire here because a
record value is always supplied.) -/
def formatRecipeJsonToText (r : RecipeData) : String :=
  if jsTruthy r.name && r.name != some "Untitled Recipe"
      && r.name != some "No Recipe Found" then
    jsTrim (r.name.getD "" ++ "\n" ++ recipeBodyText r)
  else if r.name == some "No Recipe Found" then
    "No recipe could be identified in the image."
  else
    jsTrim (recipeBodyText r)

/-- The order/instruction projection of a step (the parts of a step
the ordering claims are about; attaching ingredients to the first step
does not change it). -/
def stepKey (s : TandoorStep) : Nat × String :=
  (s.order, s.instruction)

/-- Predicate stating that `needle` occurs contiguously inside `hay`. -/
def SubstrOf (needle hay : String) : Prop :=
  ∃ p q, hay = p ++ needle ++ q

/-- Keep-first-occurrence deduplication by exact (case-sensitive)
string equality, stated the way the specification describes the
keyword set. -/
def dedupKeepFirst : List String → List String
  | [] => []
  | x :: xs => x :: dedupKeepFirst (xs.filter fun y => y != x)
termination_by l => l.length
decreasing_by simp only [List.length_cons]; exact Nat.lt_succ_of_le (List.length_filter_le _ _)

/-- The split/trim part of the specification's keyword pipeline, with
the amendment that tokens which are empty after trimming are
discarded. -/
def specSplitTokens (keywords : Option String) : List String :=
  match keywords with
  | some ks => ((jsSplit ks ",").map jsTrim).filter fun t => t != ""
  | none => []

/-- The category/cuisine contribution of the specification's keyword
pipeline: the trimmed value as a token when present and nonempty. -/
def specExtraToken (field : Option String) : List String :=
  match field with
  | some c => if jsTrim c = "" then [] else [jsTrim c]
  | none => []

/-- The keyword names as the (amended) claim describes them: split the
keywords field on commas, trim, discard blank tokens, append the
trimmed category and cuisine when nonempty, deduplicate keeping first
occurrences, clamp each surviving token to 128 characters. -/
def keywordNamesSpec (r : RecipeData) : List String :=
  (dedupKeepFirst (specSplitTokens r.keywords ++ specExtraToken r.recipeCategory ++
    specExtraToken r.recipeCuisine)).map fun kw => kw.take 128

/-- The keyword names exactly as the claim literally states them:
split on commas and trim each token, with no provision for discarding
tokens that are empty after trimming. -/
def keywordNamesClaimed (r : RecipeData) : List String :=
  (dedupKeepFirst ((match r.keywords with
      | some ks => (jsSplit ks ",").map jsTrim
      | none => []) ++ specExtraToken r.recipeCategory ++
    specExtraToken r.recipeCuisine)).map fun kw => kw.take 128

/-- Record with a blank instruction entry followed by a non-blank one
(the scenario of the step-ordering claim). -/
def gapRecord : RecipeData :=
  { recipeInstructions := some [.plain "", .plain "Mix the flour"] }

/-- Record whose keywords field is a single comma (two tokens that are
empty after trimming). -/
def commaRecord : RecipeData :=
  { keywords := some "," }

/-- Record of the specification's keyword-dedup example. -/
def dessertRecord : RecipeData :=
  { keywords := some "Dessert, dessert", recipeCategory := some "Dessert" }

/-- Record named exactly `"Untitled Recipe"` with other fields
populated. -/
def untitledRecord : RecipeData :=
  { name := some "Untitled Recipe", description := some "Tasty"
  , keywords := some "quick" }

/-- Record whose single instruction entry is whitespace-only, with an
ingredient line present. -/
def blankInstructionRecord : RecipeData :=
  { recipeInstructions := some [InstructionEntry.plain "  "]
  , recipeIngredient := some ["2 cups flour"] }

end RecipeApp

namespace RecipeApp

theorem iso_nomatch (s : String) (h : durMatch s = none) :
    isoDurationToMinutes (some s) = none := by
  by_cases hs : s = ""
  · simp [isoDurationToMinutes, hs]
  · simp [isoDurationToMinutes, hs, h]

theorem iso_match (s : String) (hours minutes seconds : Nat)
    (h : durMatch s = some (hours, minutes, seconds)) :
    isoDurationToMinutes (some s) =
      (if hours * 60 + minutes + (seconds + 30) / 60 = 0 then none
       else some (hours * 60 + minutes + (seconds + 30) / 60)) := by
  by_cases hs : s = ""
  · subst hs
    have hnone : durMatch "" = none := rfl
    rw [hnone] at h
    cases h
  · have hsec : (if seconds > 0 then (seconds + 30) / 60 else 0) = (seconds + 30) / 60 := by
      cases seconds with
      | zero => simp
      | succ n => simp
    simp only [isoDurationToMinutes, hs, if_neg, h, hsec]
    rcases Nat.eq_zero_or_pos (hours * 60 + minutes + (seconds + 30) / 60) with h0 | hpos
    · simp [h0]
    · simp [hpos, Nat.pos_iff_ne_zero.mp hpos]

theorem attach_map_stepKey (steps : List TandoorStep) (ings : List TandoorIngredient) :
    (attachIngredients steps ings).map stepKey = steps.map stepKey := by
  cases steps <;> rfl

theorem attach_ne_nil (steps : List TandoorStep) (ings : List TandoorIngredient)
    (h : steps ≠ []) : attachIngredients steps ings ≠ [] := by
  cases steps with
  | nil => exact absurd rfl h
  | cons s rest => simp [attachIngredients]

theorem stepsFromInstructions_map_stepKey (l : List InstructionEntry) :
    (stepsFromInstructions l).map stepKey =
      (l.enum.filter fun p => jsTrim (textOfEntry p.2) != "").map
        (fun p => (p.1, textOfEntry p.2)) := by
  unfold stepsFromInstructions
  rw [List.mapIdx_eq_enum_map, List.filter_map, List.map_map]
  have hp : ((fun step => jsTrim step.instruction != "") ∘
      Function.uncurry fun index item => stepObject index (textOfEntry item)) =
      (fun p : Nat × InstructionEntry => jsTrim (textOfEntry p.2) != "") := by
    funext p
    cases p
    rfl
  rw [hp]
  apply List.map_congr_left
  intro p _
  cases p
  rfl

theorem stepsFromInstructions_eq_nil (l : List InstructionEntry)
    (h : ∀ e ∈ l, jsTrim (textOfEntry e) = "") : stepsFromInstructions l = [] := by
  unfold stepsFromInstructions
  rw [List.filter_eq_nil_iff]
  intro s hs
  obtain ⟨i, hi, rfl⟩ := List.mem_mapIdx.mp hs
  simp [stepObject, h _ (List.getElem_mem hi)]

theorem stepsFromInstructions_ne_nil (l : List InstructionEntry)
    (h : ∃ e ∈ l, jsTrim (textOfEntry e) ≠ "") : stepsFromInstructions l ≠ [] := by
  obtain ⟨e, he, hnb⟩ := h
  obtain ⟨i, hi, hei⟩ := List.mem_iff_getElem.mp he
  intro hnil
  unfold stepsFromInstructions at hnil
  have hmem : stepObject i (textOfEntry e) ∈
      l.mapIdx fun index item => stepObject index (textOfEntry item) :=
    List.mem_mapIdx.mpr ⟨i, hi, by rw [hei]⟩
  have := List.filter_eq_nil_iff.mp hnil _ hmem
  simp [stepObject] at this
  exact hnb this

theorem stepsFromInstructions_ingredients (l : List InstructionEntry) :
    ∀ s ∈ stepsFromInstructions l, s.ingredients = [] := by
  intro s hs
  unfold stepsFromInstructions at hs
  obtain ⟨i, hi, rfl⟩ := List.mem_mapIdx.mp (List.mem_of_mem_filter hs)
  rfl

theorem dedupKeepFirst_nil : dedupKeepFirst [] = [] := by
  rw [dedupKeepFirst]

theorem dedupKeepFirst_cons (x : String) (xs : List String) :
    dedupKeepFirst (x :: xs) = x :: dedupKeepFirst (xs.filter fun y => y != x) := by
  rw [dedupKeepFirst]

theorem foldl_addKeyword (xs : List String) : ∀ acc : List String,
    xs.foldl addKeyword acc = acc ++ dedupKeepFirst (xs.filter fun y => !acc.contains y) := by
  induction xs with
  | nil => intro acc; simp [dedupKeepFirst_nil]
  | cons x rest ih =>
    intro acc
    rw [List.foldl_cons, List.filter_cons]
    by_cases hc : acc.contains x = true
    · have hmem : x ∈ acc := by simpa using hc
      have ha : addKeyword acc x = acc := by simp [addKeyword, hmem]
      rw [ha, ih acc, if_neg (by simp [hmem])]
    · have hmem : x ∉ acc := by simpa using hc
      have ha : addKeyword acc x = acc ++ [x] := by simp [addKeyword, hmem]
      rw [ha, ih (acc ++ [x]), if_pos (by simp [hmem])]
      rw [dedupKeepFirst_cons, List.filter_filter, List.append_assoc]
      have hpred : (fun y => !(acc ++ [x]).contains y) =
          (fun y => (y != x) && !acc.contains y) := by
        funext y
        simp only [List.contains_eq_any_beq, List.any_append, List.any_cons, List.any_nil,
          Bool.or_false, Bool.not_or, bne]
        exact Bool.and_comm _ _
      rw [hpred]
      rfl

theorem foldl_skip (ts : List String) : ∀ acc : List String,
    ts.foldl (fun acc t => if t = "" then acc else addKeyword acc t) acc
      = (ts.filter fun t => t != "").foldl addKeyword acc := by
  induction ts with
  | nil => intro acc; rfl
  | cons t rest ih =>
    intro acc
    rw [List.foldl_cons, List.filter_cons]
    by_cases ht : t = ""
    · rw [if_pos ht, if_neg (by simp [ht]), ih]
    · rw [if_neg ht, if_pos (by simp [ht]), List.foldl_cons, ih]

theorem keywordsAfterSplit_eq (keywords : Option String) :
    keywordsAfterSplit keywords = (specSplitTokens keywords).foldl addKeyword [] := by
  cases keywords with
  | none => rfl
  | some ks =>
    by_cases hks : ks = ""
    · subst hks; rfl
    · simp only [keywordsAfterSplit, specSplitTokens, if_neg hks]
      exact foldl_skip _ []

theorem addFieldKeyword_eq (field : Option String) (acc : List String) :
    addFieldKeyword field acc = (specExtraToken field).foldl addKeyword acc := by
  cases field with
  | none => rfl
  | some c =>
    by_cases hc : c = ""
    · subst hc; rfl
    · by_cases ht : jsTrim c = ""
      · simp [addFieldKeyword, specExtraToken, hc, ht]
      · simp [addFieldKeyword, specExtraToken, hc, ht]

theorem keywordTokens_dedup (r : RecipeData) :
    keywordTokens r = dedupKeepFirst (specSplitTokens r.keywords ++
      specExtraToken r.recipeCategory ++ specExtraToken r.recipeCuisine) := by
  unfold keywordTokens
  rw [keywordsAfterSplit_eq, addFieldKeyword_eq, addFieldKeyword_eq,
    ← List.foldl_append, ← List.foldl_append, foldl_addKeyword]
  simp

theorem firstDigitRun_eq_none (cs : List Char) (h : ∀ c ∈ cs, c.isDigit = false) :
    firstDigitRun cs = none := by
  induction cs with
  | nil => rfl
  | cons c rest ih =>
    rw [firstDigitRun, if_neg (by simp [h c (List.mem_cons_self c rest)])]
    exact ih fun d hd => h d (List.mem_cons_of_mem c hd)

/-- Claim C3 (confirmed): `toMinutes` returns `null` for an absent
input or when the string does not match the PT-duration pattern at all;
a matching string yields `hours*60 + minutes + round(seconds/60)` with
absent groups defaulting to 0, except that a computed total of 0 is
returned as `null`; and the five concrete examples of the
specification hold. -/
theorem c3_duration_toMinutes :
    isoDurationToMinutes none = none ∧
    (∀ s, durMatch s = none → isoDurationToMinutes (some s) = none) ∧
    (∀ s hours minutes seconds, durMatch s = some (hours, minutes, seconds) →
      isoDurationToMinutes (some s) =
        (if hours * 60 + minutes + (seconds + 30) / 60 = 0 then none
         else some (hours * 60 + minutes + (seconds + 30) / 60))) ∧
    isoDurationToMinutes (some "PT1H30M") = some 90 ∧
    isoDurationToMinutes (some "PT45S") = some 1 ∧
    isoDurationToMinutes (some "garbage") = none ∧
    isoDurationToMinutes (some "PT0S") = none :=
  ⟨rfl, iso_nomatch, iso_match, by decide, by decide, by decide, by decide⟩

/-- Witness for C3: the universally quantified parts applied at the
concrete non-matching string `"abc"` and the matching string
`"PT2H5M"`. -/
theorem c3_duration_toMinutes_witness :
    isoDurationToMinutes (some "abc") = none ∧
    isoDurationToMinutes (some "PT2H5M") =
      (if 2 * 60 + 5 + (0 + 30) / 60 = 0 then none
       else some (2 * 60 + 5 + (0 + 30) / 60)) :=
  ⟨c3_duration_toMinutes.2.1 "abc" (by decide),
   c3_duration_toMinutes.2.2.1 "PT2H5M" 2 5 0 (by decide)⟩

/-- Claim C9 (confirmed): when the yield is absent or contains no
digit, the payload carries no `servings` key (`none` models the key
being omitted, as the source only conditionally assigns it), while
`servings_text` is always present: the yield text hard-truncated to 32
characters, or `""` when the yield is absent. -/
theorem c9_servings_omitted (r : RecipeData) :
    (r.recipeYield = none →
      (buildTandoorPayload r).servings = none ∧
      (buildTandoorPayload r).servings_text = "") ∧
    (∀ y, r.recipeYield = some y → (∀ c ∈ y.data, c.isDigit = false) →
      (buildTandoorPayload r).servings = none) ∧
    (∀ y, r.recipeYield = some y →
      (buildTandoorPayload r).servings_text =
        (if y.length > 32 then y.take 32 else y)) := by
  refine ⟨fun h => ?_, fun y hy hnd => ?_, fun y hy => ?_⟩
  · simp [buildTandoorPayload, h, parseServings]
  · simp only [buildTandoorPayload, hy, parseServings]
    by_cases hy0 : y = ""
    · simp [hy0]
    · simp [hy0, firstDigitRun_eq_none y.data hnd]
  · simp only [buildTandoorPayload, hy, parseServings]
    by_cases hy0 : y = ""
    · simp [hy0]
    · simp [hy0]

/-- Witness for C9: a digit-free yield string on an otherwise empty
record. -/
theorem c9_servings_omitted_witness :
    (buildTandoorPayload { recipeYield := some "many" }).servings = none ∧
    (buildTandoorPayload { recipeYield := some "many" }).servings_text =
      (if ("many" : String).length > 32 then ("many" : String).take 32 else "many") :=
  ⟨(c9_servings_omitted _).2.1 "many" rfl (by decide),
   (c9_servings_omitted _).2.2 "many" rfl⟩

/-- Claim C5 (confirmed): a base URL that (after trimming) starts with
neither accepted scheme prefix makes the export fail immediately with
the fixed configuration-error message — for every network oracle, so no
request is issued — and the message identifies the Tandoor URL as
invalid. -/
theorem c5_url_validation (tandoorBaseUrl apiKey : String) (recipeData : RecipeData)
    (fetchOracle : String → String → TandoorPayload → FetchResult)
    (h : ¬(jsStartsWith (jsTrim tandoorBaseUrl) "http://" = true ∨
           jsStartsWith (jsTrim tandoorBaseUrl) "https://" = true)) :
    exportToTandoor tandoorBaseUrl apiKey recipeData fetchOracle =
      .error "Invalid Tandoor URL: Must start with http:// or https://" ∧
    SubstrOf "Invalid Tandoor URL"
      "Invalid Tandoor URL: Must start with http:// or https://" := by
  constructor
  · have h1 : jsStartsWith (jsTrim tandoorBaseUrl) "http://" = false := by
      simpa using fun hb => h (Or.inl hb)
    have h2 : jsStartsWith (jsTrim tandoorBaseUrl) "https://" = false := by
      simpa using fun hb => h (Or.inr hb)
    simp [exportToTandoor, h1, h2]
  · exact ⟨"", ": Must start with http:// or https://", rfl⟩

/-- Witness for C5: the specification's `"ftp://x"` example, with an
oracle that would report success if it were ever consulted. -/
theorem c5_url_validation_witness :
    exportToTandoor "ftp://x" "secret-key" {}
      (fun _ _ _ => .response 200 (.jsonOther "")) =
      .error "Invalid Tandoor URL: Must start with http:// or https://" ∧
    SubstrOf "Invalid Tandoor URL"
      "Invalid Tandoor URL: Must start with http:// or https://" :=
  c5_url_validation "ftp://x" "secret-key" {} _ (by decide)

/-- Claim C4 (confirmed): status 401/403 yields the fixed
authentication message (a constant — the API key is not an input of the
classification, so it cannot appear); status 400 keeps the message
carrying the flattened field-level details, and on body
`{"name": ["too long"]}` that message contains `"name: too long"`;
status 404 yields the fixed endpoint message, which references the
Tandoor Instance URL; a thrown transport-level `TypeError` produces the
network message wrapping the original low-level message. -/
theorem c4_error_classification :
    (∀ status body, status = 401 ∨ status = 403 →
      classifyError status body =
        "Authentication failed. Please check your Tandoor API Key.") ∧
    (∀ entries, String.intercalate "; " (entries.map flattenFieldError) ≠ "" →
      SubstrOf (String.intercalate "; " (entries.map flattenFieldError))
        (classifyError 400 (.jsonObj entries))) ∧
    SubstrOf "name: too long"
      (classifyError 400 (.jsonObj [("name", .list ["too long"])])) ∧
    (∀ body, classifyError 404 body =
      "Tandoor API endpoint not found. Please check the Tandoor Instance URL.") ∧
    SubstrOf "Tandoor Instance URL"
      (classifyError 404 (.jsonOther "x")) ∧
    (∀ msg, SubstrOf msg (networkErrorMessage msg)) ∧
    (∀ baseUrl apiKey r msg,
      (jsStartsWith (jsTrim baseUrl) "http://" ||
        jsStartsWith (jsTrim baseUrl) "https://") = true →
      exportToTandoor baseUrl apiKey r (fun _ _ _ => .typeErrorThrow msg) =
        (if isNetworkFailureMsg msg then .error (networkErrorMessage msg)
         else .error msg)) ∧
    (∀ baseUrl apiKey r status body,
      (jsStartsWith (jsTrim baseUrl) "http://" ||
        jsStartsWith (jsTrim baseUrl) "https://") = true →
      ¬(200 ≤ status ∧ status ≤ 299) →
      exportToTandoor baseUrl apiKey r (fun _ _ _ => .response status body) =
        .error (classifyError status body)) := by
  refine ⟨?_, ?_, ?_, ?_, ?_, ?_, ?_, ?_⟩
  · intro status body h
    simp only [classifyError]
    rw [if_pos h]
  · intro entries hne
    have hbne : (String.intercalate "; " (entries.map flattenFieldError) != "") = true := by
      simpa using hne
    simp only [classifyError, buildErrorMessage]
    rw [if_pos trivial, if_pos hbne]
    exact ⟨"Tandoor API request failed with status " ++ toString (400 : Nat) ++ "." ++
      " Details: \x7b", "\x7d", rfl⟩
  · exact ⟨"Tandoor API request failed with status 400. Details: \x7b", "\x7d", rfl⟩
  · intro body
    simp [classifyError]
  · exact ⟨"Tandoor API endpoint not found. Please check the ", ".", rfl⟩
  · intro msg
    exact ⟨"Network error or Tandoor instance unreachable. Check URL and CORS settings on your Tandoor instance if this is a self-hosted setup. Original: ",
      "", by simp [networkErrorMessage]⟩
  · intro baseUrl apiKey r msg hvalid
    simp [exportToTandoor, hvalid]
  · intro baseUrl apiKey r status body hvalid hst
    simp [exportToTandoor, hvalid, hst]

/-- Witness for C4: the quantified parts applied at status 401, at the
specification's 400-response body, at a 404 body, and at a thrown
`"Failed to fetch"` transport failure on a valid base URL. -/
theorem c4_error_classification_witness :
    classifyError 401 (.jsonOther "oops") =
      "Authentication failed. Please check your Tandoor API Key." ∧
    SubstrOf (String.intercalate "; "
        ([(("name" : String), ErrVal.list ["too long"])].map flattenFieldError))
      (classifyError 400 (.jsonObj [("name", .list ["too long"])])) ∧
    classifyError 404 (.unparseable "") =
      "Tandoor API endpoint not found. Please check the Tandoor Instance URL." ∧
    SubstrOf "Failed to fetch" (networkErrorMessage "Failed to fetch") ∧
    exportToTandoor "http://tandoor.local" "secret" {}
      (fun _ _ _ => .typeErrorThrow "Failed to fetch") =
      (if isNetworkFailureMsg "Failed to fetch" then
        .error (networkErrorMessage "Failed to fetch")
       else .error "Failed to fetch") ∧
    exportToTandoor "http://tandoor.local" "secret" {}
      (fun _ _ _ => .response 401 (.jsonOther "oops")) =
      .error (classifyError 401 (.jsonOther "oops")) := by
  obtain ⟨h1, h2, _, h4, _, h6, h7, h8⟩ := c4_error_classification
  exact ⟨h1 401 _ (Or.inl rfl), h2 _ (by decide), h4 _,
    h6 "Failed to fetch", h7 "http://tandoor.local" "secret" {} _ (by decide),
    h8 "http://tandoor.local" "secret" {} 401 _ (by decide) (by decide)⟩

/-- Claim C2 (confirmed): the normalizer and its helpers are total Lean
functions (so no input can raise), and each missing or malformed
optional field degrades to its documented default: absent or empty name
becomes `"Untitled Recipe"`, absent description stays `null`, absent or
non-matching durations omit the time keys, absent yield omits
`servings` and empties `servings_text`, absent instructions produce the
placeholder step, absent ingredients leave every step without
ingredients, and absent keywords/category/cuisine give an empty keyword
list. -/
theorem c2_normalizer_total_defaults (r : RecipeData) :
    (r.name = none → (buildTandoorPayload r).name = "Untitled Recipe") ∧
    (r.name = some "" → (buildTandoorPayload r).name = "Untitled Recipe") ∧
    (r.description = none → (buildTandoorPayload r).description = none) ∧
    (r.prepTime = none → (buildTandoorPayload r).working_time = none) ∧
    (∀ s, r.prepTime = some s → durMatch s = none →
      (buildTandoorPayload r).working_time = none) ∧
    (r.cookTime = none → (buildTandoorPayload r).waiting_time = none) ∧
    (r.recipeYield = none → (buildTandoorPayload r).servings = none ∧
      (buildTandoorPayload r).servings_text = "") ∧
    (r.recipeInstructions = none →
      (buildTandoorPayload r).steps.map stepKey = [(0, "No instructions provided.")]) ∧
    (r.recipeIngredient = none →
      ∀ s ∈ (buildTandoorPayload r).steps, s.ingredients = []) ∧
    (r.keywords = none → r.recipeCategory = none → r.recipeCuisine = none →
      (buildTandoorPayload r).keywords = []) := by
  refine ⟨fun h => ?_, fun h => ?_, fun h => ?_, fun h => ?_, fun s hs hm => ?_,
    fun h => ?_, fun h => ?_, fun h => ?_, fun h => ?_, fun h1 h2 h3 => ?_⟩
  · simp only [buildTandoorPayload, h]; rfl
  · simp only [buildTandoorPayload, h]; rfl
  · simp only [buildTandoorPayload, h, descriptionClamped]
  · simp only [buildTandoorPayload, h]; rfl
  · simp only [buildTandoorPayload, hs]; exact iso_nomatch s hm
  · simp only [buildTandoorPayload, h]; rfl
  · simp [buildTandoorPayload, h, parseServings]
  · simp only [buildTandoorPayload, h, stepsOrPlaceholder, stepsBase]
    cases hri : r.recipeIngredient with
    | none => rfl
    | some il => simp only [stepsWithIngredients]; rw [attach_map_stepKey]; rfl
  · intro s hs
    revert hs
    simp only [buildTandoorPayload, h, stepsWithIngredients, stepsOrPlaceholder]
    cases hins : r.recipeInstructions with
    | none =>
      simp only [stepsBase, List.isEmpty_nil, if_true, List.mem_singleton]
      intro hs
      subst hs
      rfl
    | some l =>
      simp only [stepsBase]
      by_cases he : (stepsFromInstructions l).isEmpty
      · simp only [he, if_true, List.mem_singleton]
        intro hs
        subst hs
        rfl
      · simp only [he, Bool.false_eq_true, if_false]
        exact fun hs => stepsFromInstructions_ingredients l s hs
  · simp [buildTandoorPayload, keywordObjects, keywordTokens, keywordsAfterSplit,
      addFieldKeyword, h1, h2, h3]

/-- Witness for C2: the defaults computed on the all-absent record, and
the malformed-duration conjunct on a record whose prepTime is not a
PT-duration. -/
theorem c2_normalizer_total_defaults_witness :
    (buildTandoorPayload {}).name = "Untitled Recipe" ∧
    (buildTandoorPayload {}).description = none ∧
    (buildTandoorPayload {}).working_time = none ∧
    (buildTandoorPayload { prepTime := some "soon" }).working_time = none ∧
    (buildTandoorPayload {}).waiting_time = none ∧
    ((buildTandoorPayload {}).servings = none ∧
      (buildTandoorPayload {}).servings_text = "") ∧
    (buildTandoorPayload {}).steps.map stepKey = [(0, "No instructions provided.")] ∧
    (∀ s ∈ (buildTandoorPayload {}).steps, s.ingredients = []) ∧
    (buildTandoorPayload {}).keywords = [] := by
  obtain ⟨h1, _, h3, h4, _, h6, h7, h8, h9, h10⟩ :=
    c2_normalizer_total_defaults ({} : RecipeData)
  obtain ⟨_, _, _, _, g5, _⟩ :=
    c2_normalizer_total_defaults ({ prepTime := some "soon" } : RecipeData)
  exact ⟨h1 rfl, h3 rfl, h4 rfl, g5 "soon" rfl (by decide), h6 rfl, h7 rfl,
    h8 rfl, h9 rfl, h10 rfl rfl rfl⟩

/-- Claim C6 (confirmed): the steps sequence of the payload is never
empty, and when the source instructions are absent or every entry's
extracted text is blank, the payload has exactly one placeholder step
with instruction `"No instructions provided."` and order 0. -/
theorem c6_steps_never_empty (r : RecipeData) :
    (buildTandoorPayload r).steps ≠ [] ∧
    ((∀ l, r.recipeInstructions = some l → ∀ e ∈ l, jsTrim (textOfEntry e) = "") →
      (buildTandoorPayload r).steps.map stepKey = [(0, "No instructions provided.")]) := by
  have hne : ∀ x, stepsOrPlaceholder x ≠ [] := by
    intro x
    unfold stepsOrPlaceholder
    by_cases hl : (stepsBase x).isEmpty
    · simp [hl]
    · rw [if_neg hl]
      intro hc
      rw [hc] at hl
      exact hl rfl
  constructor
  · simp only [buildTandoorPayload]
    cases hri : r.recipeIngredient with
    | none => exact hne _
    | some il =>
      simp only [stepsWithIngredients]
      exact attach_ne_nil _ _ (hne _)
  · intro hall
    simp only [buildTandoorPayload, stepsOrPlaceholder]
    cases hins : r.recipeInstructions with
    | none =>
      cases hri : r.recipeIngredient with
      | none => rfl
      | some il => simp only [stepsWithIngredients]; rw [attach_map_stepKey]; rfl
    | some l =>
      have h0 : stepsFromInstructions l = [] :=
        stepsFromInstructions_eq_nil l (hall l hins)
      simp only [stepsBase, h0]
      cases hri : r.recipeIngredient with
      | none => rfl
      | some il => simp only [stepsWithIngredients]; rw [attach_map_stepKey]; rfl

/-- Witness for C6: a record whose only instruction entry is
whitespace, with an ingredient present (the placeholder step still
carries order 0 and the fixed text). -/
theorem c6_steps_never_empty_witness :
    (buildTandoorPayload blankInstructionRecord).steps.map stepKey
      = [(0, "No instructions provided.")] := by
  apply (c6_steps_never_empty _).2
  intro l hl e he
  have hl2 : some [InstructionEntry.plain "  "] = some l := hl
  injection hl2 with hl3
  subst hl3
  simp only [List.mem_singleton] at he
  subst he
  decide

/-- Claim C1 counterexample: on instructions `["", "Mix the flour"]`
(a blank entry followed by a non-blank one) the single surviving step
has order 1, not its position 0 in the final steps sequence — the
emitted orders are not `0,1,2,...`. -/
theorem c1_step_order_counterexample :
    (jsTrim (textOfEntry (.plain "")) = "" ∧
      jsTrim (textOfEntry (.plain "Mix the flour")) ≠ "") ∧
    (buildTandoorPayload gapRecord).steps.map (fun s => s.order) ≠
      List.range (buildTandoorPayload gapRecord).steps.length := by
  exact ⟨⟨rfl, by decide⟩, by decide⟩

/-- Claim C1 (corrected): `order` is assigned by the map over the
original instruction list before blank steps are filtered out, so each
surviving step carries the zero-based position of its entry in the
source list (orders may therefore have gaps, as the counterexample
shows), rather than its position in the final sequence. -/
theorem c1_order_from_source_position (r : RecipeData) (l : List InstructionEntry)
    (hins : r.recipeInstructions = some l)
    (hnb : ∃ e ∈ l, jsTrim (textOfEntry e) ≠ "") :
    (buildTandoorPayload r).steps.map stepKey =
      (l.enum.filter fun p => jsTrim (textOfEntry p.2) != "").map
        (fun p => (p.1, textOfEntry p.2)) := by
  have hne := stepsFromInstructions_ne_nil l hnb
  have hie : (stepsFromInstructions l).isEmpty = false := by
    cases hsf : stepsFromInstructions l with
    | nil => exact absurd hsf hne
    | cons a rest => rfl
  simp only [buildTandoorPayload, stepsOrPlaceholder, stepsBase, hins, hie,
    Bool.false_eq_true, if_false]
  cases hri : r.recipeIngredient with
  | none => exact stepsFromInstructions_map_stepKey l
  | some il =>
    simp only [stepsWithIngredients]
    rw [attach_map_stepKey]
    exact stepsFromInstructions_map_stepKey l

/-- Witness for C1: the amended order theorem applied to the
counterexample record. -/
theorem c1_order_from_source_position_witness :
    (buildTandoorPayload gapRecord).steps.map stepKey =
      (([InstructionEntry.plain "", InstructionEntry.plain "Mix the flour"].enum.filter
        fun p => jsTrim (textOfEntry p.2) != "").map fun p => (p.1, textOfEntry p.2)) :=
  c1_order_from_source_position gapRecord _ rfl
    ⟨.plain "Mix the flour", by decide, by decide⟩

/-- Claim C7 counterexample: on keywords `","` the code produces no
keyword entries (blank tokens are dropped after trimming), while the
claim's literal pipeline — split, trim, deduplicate, clamp, with no
blank-token filtering — produces one entry with the empty name. -/
theorem c7_keywords_counterexample :
    (buildTandoorPayload commaRecord).keywords.map (fun k => k.name) = [] ∧
    keywordNamesClaimed commaRecord = [""] ∧
    (buildTandoorPayload commaRecord).keywords.map (fun k => k.name) ≠
      keywordNamesClaimed commaRecord := by
  have h1 : (buildTandoorPayload commaRecord).keywords.map (fun k => k.name) = [] := rfl
  have h2 : keywordNamesClaimed commaRecord = [""] := by
    show (dedupKeepFirst ((["", ""] : List String) ++ [] ++ [])).map
      (fun kw => kw.take 128) = [""]
    rw [List.append_nil, List.append_nil, dedupKeepFirst_cons]
    simp [dedupKeepFirst_nil]
    rfl
  refine ⟨h1, h2, ?_⟩
  rw [h1, h2]
  simp

/-- Claim C7 (corrected): the payload's keyword names are exactly the
claim's pipeline amended to discard tokens that are empty after
trimming: split the keywords field on commas, trim, drop blanks, add
the trimmed category and cuisine when nonempty, deduplicate
case-sensitively keeping first occurrences, and clamp each name to 128
characters; the specification's `"Dessert, dessert"` + `"Dessert"`
example yields exactly `["Dessert", "dessert"]`. -/
theorem c7_keywords_amended :
    (∀ r : RecipeData,
      (buildTandoorPayload r).keywords.map (fun k => k.name) = keywordNamesSpec r) ∧
    (buildTandoorPayload dessertRecord).keywords.map (fun k => k.name) =
      ["Dessert", "dessert"] := by
  constructor
  · intro r
    have hcomp : ∀ ts : List String,
        (ts.map fun kw => ({ name := kw.take 128, description := "" } : TandoorKeyword)).map
          (fun k => k.name) = ts.map fun kw => kw.take 128 := by
      intro ts
      simp [Function.comp]
    simp only [buildTandoorPayload, keywordObjects]
    rw [hcomp, keywordTokens_dedup]
    rfl
  · decide

/-- Claim C8 (confirmed): a record whose name is the sentinel
`"No Recipe Found"` formats to exactly the fixed not-found message,
whatever the other fields hold. -/
theorem c8_no_recipe_found (r : RecipeData) (h : r.name = some "No Recipe Found") :
    formatRecipeJsonToText r = "No recipe could be identified in the image." := by
  simp [formatRecipeJsonToText, h, jsTruthy]

/-- Witness for C8: the sentinel name with every other field
populated. -/
theorem c8_no_recipe_found_witness :
    formatRecipeJsonToText
      { name := some "No Recipe Found", description := some "Rich stew",
        recipeIngredient := some ["2 cups flour"],
        recipeInstructions := some [.plain "Stir"], prepTime := some "PT10M",
        cookTime := some "PT1H", recipeYield := some "4 servings",
        recipeCategory := some "Dinner", recipeCuisine := some "Italian",
        keywords := some "hearty" } =
      "No recipe could be identified in the image." :=
  c8_no_recipe_found _ rfl

end RecipeApp

namespace RecipeApp

/-- Claim C10 (confirmed): a record named exactly `"Untitled Recipe"`
is not the not-found sentinel, yet its title line is suppressed: the
formatter renders it exactly as it renders the same record with no name
at all, so the output starts with the remaining fields and has no
title line. -/
theorem c10_untitled_name_suppressed (r : RecipeData)
    (h : r.name = some "Untitled Recipe") :
    formatRecipeJsonToText r = formatRecipeJsonToText { r with name := none } := by
  cases r with
  | mk nm d ri ins pt ct ry cat cui kw =>
    simp only at h
    subst h
    simp [formatRecipeJsonToText, recipeBodyText, ingredientsSection,
      instructionsSection, jsTruthy]

/-- Witness for C10: the suppression theorem applied to a concrete
record named `"Untitled Recipe"` with a description and keywords. -/
theorem c10_untitled_name_suppressed_witness :
    formatRecipeJsonToText untitledRecord =
      formatRecipeJsonToText { untitledRecord with name := none } :=
  c10_untitled_name_suppressed untitledRecord rfl

end RecipeApp
